import Mathlib

/-!
Verification of the doctor-network-checker repository (CLI `check_doctors.py`
and web front end `app.py`) against its natural-language specification.

Python strings are modelled as `String` (Lean strings are code-point
sequences, as Python strings are); the Python string primitives used by the
source (`strip`, `lower`, `replace`, `split`, `join`, membership, slicing)
are defined below on `List Char` and wrapped.  Coordinates (Python floats
whose program constants all have at most four decimal digits) are modelled
exactly as fixed-point integers scaled by 10^4: the integer `n : ℤ` stands
for the coordinate `n / 10000` degrees.  Network interaction is modelled by passing the outcome of the
single HTTP request (an oracle value) to the function that performs it, so
that a function that does not consult the oracle provably makes no request.
-/

/-- Python whitespace test for `str.strip` / `str.split()` (ASCII range). -/
def pyIsSpace (c : Char) : Bool :=
  c = ' ' || c = '\t' || c = '\n' || c = '\x0d' || c = '\x0b' || c = '\x0c'

/-- `str.strip()` on a character list: drop whitespace at both ends. -/
def stripL (s : List Char) : List Char :=
  ((s.dropWhile pyIsSpace).reverse.dropWhile pyIsSpace).reverse

/-- `str.strip()`. -/
def pyStrip (s : String) : String := ⟨stripL s.data⟩

/-- `str.lower()` (ASCII case folding; all inputs of interest are ASCII). -/
def pyLower (s : String) : String := ⟨s.data.map Char.toLower⟩

/-- `old in s` for a one-character needle. -/
def pyHasChar (c : Char) (s : String) : Bool := s.data.contains c

/-- Fuel-indexed core of `str.replace`; each step consumes at least one
character and exactly one unit of fuel, so fuel `s.length` always suffices. -/
def replaceFuel (pat repl : List Char) : Nat → List Char → List Char
  | 0, s => s
  | _ + 1, [] => []
  | n + 1, c :: rest =>
    if (!pat.isEmpty) && pat.isPrefixOf (c :: rest) then
      repl ++ replaceFuel pat repl n (rest.drop (pat.length - 1))
    else
      c :: replaceFuel pat repl n rest

/-- Core of `str.replace`: replace each non-overlapping occurrence of `pat`
(scanning left to right) by `repl`.  The source never calls `replace` with an
empty pattern; an empty `pat` leaves the string unchanged here. -/
def replaceCore (pat repl s : List Char) : List Char :=
  replaceFuel pat repl s.length s

/-- `s.replace(pat, repl)`. -/
def pyReplace (s pat repl : String) : String := ⟨replaceCore pat.data repl.data s.data⟩

/-- Core of substring membership `pat in s`. -/
def containsSub (pat : List Char) : List Char → Bool
  | [] => pat.isEmpty
  | c :: rest => pat.isPrefixOf (c :: rest) || containsSub pat rest

/-- `pat in s` (Python substring membership). -/
def pyIn (pat s : String) : Bool := containsSub pat.data s.data

/-- Core of `s.split(",")`: split at every comma, keeping empty pieces. -/
def splitCommaL : List Char → List (List Char)
  | [] => [[]]
  | c :: rest =>
    let r := splitCommaL rest
    if c = ',' then [] :: r
    else
      match r with
      | h :: t => (c :: h) :: t
      | [] => [[c]]

/-- `s.split(",")`. -/
def pySplitComma (s : String) : List String := (splitCommaL s.data).map (⟨·⟩)

/-- Break a character list at the first occurrence of `ch`:
the part before it, and (when `ch` occurs) the part after it.
`s.split(ch, 1)` yields `[before, after]` exactly when the second
component is `some after`. -/
def breakAtChar (ch : Char) : List Char → List Char × Option (List Char)
  | [] => ([], none)
  | c :: rest =>
    if c = ch then ([], some rest)
    else
      let p := breakAtChar ch rest
      (c :: p.1, p.2)

/-- Core of `s.split()` (no separator): whitespace-delimited tokens,
empty tokens dropped. -/
def pyWordsL (s : List Char) : List (List Char) :=
  (s.splitOnP pyIsSpace).filter (fun w => !w.isEmpty)

/-- `s.split()`. -/
def pyWords (s : String) : List String := (pyWordsL s.data).map (⟨·⟩)

/-- `" ".join(ws)`. -/
def pyJoinSpace (ws : List String) : String := ⟨List.intercalate [' '] (ws.map String.data)⟩

/-- `s.index(c)` for a character known to occur (Python raises otherwise;
the source only calls it after an `in` check). Absent characters give the
length, which the source never relies on. -/
def pyIndexOf (s : String) (c : Char) : Nat := s.data.findIdx (· = c)

/-- Python slice `s[a:b]` (with the clamping slice semantics). -/
def pySlice (s : String) (a b : Nat) : String := ⟨(s.data.drop a).take (b - a)⟩

/-- Python slice `s[:n]`. -/
def pyTake (s : String) (n : Nat) : String := ⟨s.data.take n⟩

deriving instance DecidableEq for Except

/-- A parsed doctor entry: `Doctor` dataclass of `check_doctors.py`, and the
`{"name": ..., "specialty": ...}` dicts of `app.py`. -/
structure Doctor where
  name : String
  specialty : Option String
deriving Repr, DecidableEq

/-- Transport-level failures of a single HTTP request
(`requests.RequestException` subclasses: timeout, connection failure, and the
non-2xx statuses surfaced by `raise_for_status`). -/
inductive TransportError where
  | timeout
  | connectionFailure
  | httpStatus (code : Nat)
deriving Repr, DecidableEq

/-- The `basic` object of an NPI registry result record; absent keys are
`none` (`basic.get(...)` with default `""` in the source). -/
structure NPIBasic where
  first_name : Option String
  last_name : Option String
  credential : Option String
deriving Repr, DecidableEq

/-- An entry of the `addresses` array of an NPI registry result record. -/
structure NPIAddress where
  address_purpose : Option String
  address_1 : Option String
  city : Option String
  state : Option String
  postal_code : Option String
  telephone_number : Option String
deriving Repr, DecidableEq

/-- The empty dict `{}` used as the fallback practice address. -/
def NPIAddress.empty : NPIAddress := ⟨none, none, none, none, none, none⟩

/-- An entry of the `taxonomies` array of an NPI registry result record;
`primary` is the truthiness of `t.get("primary")`. -/
structure NPITaxonomy where
  primary : Bool
  desc : Option String
deriving Repr, DecidableEq

/-- The empty dict `{}` used as the fallback taxonomy. -/
def NPITaxonomy.empty : NPITaxonomy := ⟨false, none⟩

/-- One result record of an NPI registry API response. -/
structure NPIRecord where
  number : Option String
  basic : NPIBasic
  addresses : List NPIAddress
  taxonomies : List NPITaxonomy
deriving Repr, DecidableEq

/-- A parsed NPI registry API response body (`data.get("results", [])`). -/
structure NPIResponse where
  results : List NPIRecord
deriving Repr, DecidableEq

/-- Outcome of the single NPI registry request a `search_npi` call issues. -/
abbrev NPIOutcome := Except TransportError NPIResponse

/-- Bytes of the UTF-8 encoding of one code point. -/
def utf8Bytes (c : Char) : List Nat :=
  let n := c.toNat
  if n < 128 then [n]
  else if n < 2048 then [192 + n / 64, 128 + n % 64]
  else if n < 65536 then [224 + n / 4096, 128 + (n / 64) % 64, 128 + n % 64]
  else [240 + n / 262144, 128 + (n / 4096) % 64, 128 + (n / 64) % 64, 128 + n % 64]

/-- Upper-case hexadecimal digit, as `urllib.parse.quote` emits. -/
def hexDigit (n : Nat) : Char :=
  if n < 10 then Char.ofNat (48 + n) else Char.ofNat (55 + n)

/-- Percent-encoding of one byte under `urllib.parse.quote` with the default
safe set: unreserved characters (letters, digits, `-`, `.`, `_`, `~`) and
`/` pass through, everything else becomes `%XX`. -/
def quoteByte (b : Nat) : List Char :=
  let c := Char.ofNat b
  if c.isAlphanum || c = '-' || c = '.' || c = '_' || c = '~' || c = '/' then [c]
  else ['%', hexDigit (b / 16), hexDigit (b % 16)]

/-- `urllib.parse.quote(s)`: percent-encode the UTF-8 bytes of `s`. -/
def quote (s : String) : String :=
  ⟨((s.data.map utf8Bytes).flatten.map quoteByte).flatten⟩

/-- `str(float)` for our fixed-point coordinates: the shortest decimal form
Python prints for these values, e.g. `str(-96.7970) = "-96.797"` and
`str(32.0) = "32.0"`. -/
def renderCoord (n : ℤ) : String :=
  let a := n.natAbs
  let fs := toString (a % 10000)
  let padded := List.replicate (4 - fs.length) '0' ++ fs.data
  let trimmed := (padded.reverse.dropWhile (· = '0')).reverse
  let frac := if trimmed.isEmpty then "0" else String.mk trimmed
  (if n < 0 then "-" else "") ++ toString (a / 10000) ++ "." ++ frac

/-- One entry of a generated link dict: dict key, display `name`, `url`. -/
structure NetworkLink where
  key : String
  label : String
  url : String
deriving Repr, DecidableEq

namespace CheckDoctors

/-- `TEXAS_LOCATIONS` of `check_doctors.py`: common Texas cities and zip
codes for offline geocoding. -/
def TEXAS_LOCATIONS : List (String × ℤ × ℤ) :=
  [ ("dallas", 327767, -967970),
    ("fort worth", 327555, -973308),
    ("houston", 297604, -953698),
    ("austin", 302672, -977431),
    ("san antonio", 294241, -984936),
    ("plano", 330198, -966989),
    ("arlington", 327357, -971081),
    ("irving", 328140, -969489),
    ("frisco", 331507, -968236),
    ("mckinney", 331972, -966397),
    ("denton", 332148, -971331),
    ("garland", 329126, -966389),
    ("richardson", 329483, -967299),
    ("carrollton", 329537, -968903),
    ("lewisville", 330462, -969942),
    ("el paso", 317619, -1064850),
    ("corpus christi", 278006, -973964),
    ("lubbock", 335779, -1018552),
    ("amarillo", 352220, -1018313),
    ("waco", 315493, -971467),
    ("midland", 319973, -1020779),
    ("odessa", 318457, -1023676),
    ("beaumont", 300802, -941266),
    ("tyler", 323513, -953011),
    ("round rock", 305083, -976789),
    ("sugar land", 296197, -956349),
    ("the woodlands", 301658, -954613),
    ("katy", 297858, -958245),
    ("pasadena", 296911, -952091),
    ("mesquite", 327668, -965992),
    ("75201", 327872, -967985),
    ("75202", 327830, -968010),
    ("76102", 327593, -973283),
    ("77002", 297545, -953592),
    ("78201", 294650, -985254),
    ("73301", 303265, -977713),
    ("78701", 302711, -977437) ]

/-- The normalization performed by `geocode_location` before the static
table lookup (lines 97-100): lower-case, strip, remove the recognized
", tx"/",tx"/" tx"/", texas"/",texas"/" texas" substrings, strip again. -/
def normalizeLocation (location : String) : String :=
  let l0 := pyStrip (pyLower location)
  let l1 := pyReplace (pyReplace (pyReplace l0 ", tx" "") ",tx" "") " tx" ""
  let l2 := pyReplace (pyReplace (pyReplace l1 ", texas" "") ",texas" "") " texas" ""
  pyStrip l2

/-- The query string sent to the geocoding fallback, and embedded in the
error raised when it fails (lines 105-106, 121): the input, with ", TX"
appended when it mentions neither "tx" nor "texas" case-insensitively. -/
def geocodeQuery (location : String) : String :=
  if !(pyIn "tx" (pyLower location)) && !(pyIn "texas" (pyLower location)) then
    location ++ ", TX"
  else location

/-- One geocoding result entry (lat/lon of a Nominatim response record). -/
structure GeoResult where
  lat : ℤ
  lon : ℤ
deriving Repr, DecidableEq

/-- Outcome of the single geocoding request `geocode_location` may issue. -/
inductive GeoOutcome where
  | failure (e : TransportError)
  | success (results : List GeoResult)
deriving Repr, DecidableEq

/-- `geocode_location` (lines 95-121).  The first component is the result:
`Except.ok` with coordinates, or `Except.error` carrying the location string
embedded in the raised `ValueError` message
("Could not geocode: {location}. ...").  The second component records
whether the geocoding network request was issued. -/
def geocode_location (net : GeoOutcome) (location : String) :
    Except String (ℤ × ℤ) × Bool :=
  match TEXAS_LOCATIONS.lookup (normalizeLocation location) with
  | some coords => (Except.ok coords, false)
  | none =>
    let q := geocodeQuery location
    match net with
    | GeoOutcome.success (r :: _) => (Except.ok (r.lat, r.lon), true)
    | GeoOutcome.success [] => (Except.error q, true)
    | GeoOutcome.failure _ => (Except.error q, true)

/-- Name parsing of `search_npi` (lines 132-144): strip the "Dr." and "Dr"
substrings, then split at a comma into last/first, or else on whitespace
into first token and joined rest.  Returns `(first, last)`. -/
def splitDoctorName (name : String) : String × String :=
  let name_parts := pyStrip (pyReplace (pyReplace name "Dr." "") "Dr" "")
  match (breakAtChar ',' name_parts.data).2 with
  | some aft => (pyStrip ⟨aft⟩, pyStrip ⟨(breakAtChar ',' name_parts.data).1⟩)
  | none =>
    match pyWords name_parts with
    | p0 :: p1 :: rest => (p0, pyJoinSpace (p1 :: rest))
    | _ => ("", name_parts)

/-- The `first_name` / `last_name` request fields of `search_npi`
(lines 153-156): included only when the split produced a non-empty part. -/
def requestNameParams (name : String) : Option String × Option String :=
  let p := splitDoctorName name
  ((if p.1 = "" then none else some p.1), (if p.2 = "" then none else some p.2))

/-- Practice-address selection of `search_npi` (lines 172-175): first entry
with `address_purpose == "LOCATION"`, else the first address, else `{}`. -/
def practiceAddress (addresses : List NPIAddress) : NPIAddress :=
  match addresses.find? (fun a => a.address_purpose == some "LOCATION") with
  | some a => a
  | none => addresses.headD NPIAddress.empty

/-- Primary-taxonomy selection of `search_npi` (lines 178-181): first entry
whose `primary` flag is truthy, else the first taxonomy, else `{}`. -/
def primaryTaxonomy (taxonomies : List NPITaxonomy) : NPITaxonomy :=
  match taxonomies.find? (fun t => t.primary) with
  | some t => t
  | none => taxonomies.headD NPITaxonomy.empty

/-- The `NPIResult` dataclass of `check_doctors.py` (lines 82-92). -/
structure NPIResult where
  npi : String
  name : String
  credential : String
  specialty : String
  address : String
  city : String
  state : String
  zip_code : String
  phone : String
deriving Repr, DecidableEq

/-- The `NPIResult` built for one response record (lines 190-202). -/
def mkNPIResult (r : NPIRecord) (practice_addr : NPIAddress)
    (specialty_name : String) : NPIResult where
  npi := r.number.getD ""
  name := pyStrip ((r.basic.first_name.getD "") ++ " " ++ (r.basic.last_name.getD ""))
  credential := r.basic.credential.getD ""
  specialty := specialty_name
  address := practice_addr.address_1.getD ""
  city := practice_addr.city.getD ""
  state := practice_addr.state.getD ""
  zip_code := pyTake (practice_addr.postal_code.getD "") 5
  phone := practice_addr.telephone_number.getD ""

/-- `search_npi` of `check_doctors.py` (lines 124-208).  The `name` argument
shapes only the outgoing request (see `requestNameParams`), whose outcome is
the oracle `net`; a transport error is caught and yields `[]` (after a
warning printed to stderr, line 207). -/
def search_npi (net : NPIOutcome) (_name : String)
    (_city specialty : Option String) : List NPIResult :=
  match net with
  | Except.error _ => []
  | Except.ok data =>
    data.results.filterMap (fun r =>
      let practice_addr := practiceAddress r.addresses
      let primary_tax := primaryTaxonomy r.taxonomies
      let specialty_name := primary_tax.desc.getD "Unknown"
      match specialty with
      | some sp =>
        if !(pyIn (pyLower sp) (pyLower specialty_name)) then none
        else some (mkNPIResult r practice_addr specialty_name)
      | none => some (mkNPIResult r practice_addr specialty_name))

/-- The "blue_advantage_hmo" template of `BCBSTX_SEARCH_URLS` (lines 23-26),
with the format fields `{query}`, `{lat}`, `{lon}`, `{radius}` substituted. -/
def blueAdvantageUrl (query latS lonS radiusS : String) : String :=
  "https://my.providerfinderonline.com/search/name/" ++ query ++
  "?ci=tx-blueadvantage-retail&network_id=1000128&geo_location=" ++ latS ++ "," ++ lonS ++
  "&locale=en&corp_code=TX&radius=" ++ radiusS

/-- The "my_blue_health" template of `BCBSTX_SEARCH_URLS` (lines 27-30). -/
def myBlueHealthUrl (query latS lonS radiusS : String) : String :=
  "https://my.providerfinderonline.com/search/name/" ++ query ++
  "?ci=tx-myblue-health&network_id=240000127&geo_location=" ++ latS ++ "," ++ lonS ++
  "&locale=en&corp_code=TX&radius=" ++ radiusS

/-- `generate_bcbstx_urls` (lines 211-221): one link per configured
template, with the doctor name percent-encoded via `quote` and the
lat/lon/radius values formatted in. -/
def generate_bcbstx_urls (name : String) (lat lon radius : ℤ) : List NetworkLink :=
  [ ⟨"blue_advantage_hmo", "Blue Advantage HMO",
      blueAdvantageUrl (quote name) (renderCoord lat) (renderCoord lon) (toString radius)⟩,
    ⟨"my_blue_health", "My Blue Health",
      myBlueHealthUrl (quote name) (renderCoord lat) (renderCoord lon) (toString radius)⟩ ]

/-- The per-result display dict built by `check_doctor` (lines 240-247). -/
structure DisplayNPI where
  npi : String
  name : String
  credential : String
  specialty : String
  location : String
  phone : String
deriving Repr, DecidableEq

/-- The display dict for one `NPIResult` (lines 240-247), with
`location = f"{r.city}, {r.state} {r.zip_code}"`. -/
def displayNPI (r : NPIResult) : DisplayNPI :=
  ⟨r.npi, r.name, r.credential, r.specialty,
   r.city ++ ", " ++ r.state ++ " " ++ r.zip_code, r.phone⟩

/-- The result dict returned by `check_doctor` (lines 234-251). -/
structure CheckResult where
  doctor : String
  specialty_filter : Option String
  npi_found : Bool
  npi_count : Nat
  npi_results : List DisplayNPI
  bcbstx_urls : List NetworkLink
deriving Repr, DecidableEq

/-- `check_doctor` (lines 224-251): one registry search plus the generated
links, assembled into the result bundle. -/
def check_doctor (net : NPIOutcome) (doctor : Doctor) (lat lon radius : ℤ)
    (city : Option String) : CheckResult :=
  let npi_results := search_npi net doctor.name city doctor.specialty
  { doctor := doctor.name
    specialty_filter := doctor.specialty
    npi_found := decide (0 < npi_results.length)
    npi_count := npi_results.length
    npi_results := (npi_results.take 5).map displayNPI
    bcbstx_urls := generate_bcbstx_urls doctor.name lat lon radius }

/-- `parse_doctors` of `check_doctors.py` (lines 306-319). -/
def parse_doctors (doctor_input : String) : List Doctor :=
  (pySplitComma doctor_input).filterMap (fun e0 =>
    let entry := pyStrip e0
    if entry = "" then none
    else if pyHasChar '(' entry && pyHasChar ')' entry then
      let i := pyIndexOf entry '('
      let j := pyIndexOf entry ')'
      some ⟨pyStrip (pyTake entry i), some (pyStrip (pySlice entry (i + 1) j))⟩
    else some ⟨entry, none⟩)

end CheckDoctors

namespace WebApp

/-- `UHC_SEARCH_URLS` of `app.py` (lines 30-43): fixed provider-finder links
with pre-baked search identifiers and no per-query parameters. -/
def UHC_SEARCH_URLS : List NetworkLink :=
  [ ⟨"tx_individual_exchange", "UHC TX Individual Exchange",
     "https://connect.werally.com/guest/eyJwbGFuTmFtZSI6IlRYIEluZGl2aWR1YWwgRXhjaGFuZ2UgQmVuZWZpdCBQbGFuIiwiZGVsc3lzIjoiOTA4IiwiY292ZXJhZ2VUeXBlIjoibWVkaWNhbCIsInBhcnRuZXJJZCI6InVoYyIsImxhbmd1YWdlIjoiZW4iLCJzaG93Q29zdHMiOnRydWUsImZpcHNDb2RlIjoiNDgifQMQFY_1U6GK3dWzJO0xysxZD0H-Ei_AJ0Wm_n0zlgcUI?planYear=2026"⟩,
    ⟨"tx_kelsey_seybold", "UHC TX Kelsey-Seybold",
     "https://connect.werally.com/guest/eyJwbGFuTmFtZSI6IlRYIEtlbHNleS1TZXlib2xkIEluZGl2aWR1YWwgRXhjaGFuZ2UgQmVuZWZpdCBQbGFuIiwiZGVsc3lzIjoiOTMzIiwiY292ZXJhZ2VUeXBlIjoibWVkaWNhbCIsInBhcnRuZXJJZCI6InVoYyIsImxhbmd1YWdlIjoiZW4iLCJzaG93Q29zdHMiOnRydWUsImZpcHNDb2RlIjoiNDgifQXmvT5Dh8azZlM00ptmfLp0BrlP0yAn-7TQUdErUzIbs?planYear=2026"⟩,
    ⟨"tx_sanitas_anchor", "UHC TX Sanitas Anchor",
     "https://connect.werally.com/guest/eyJwbGFuTmFtZSI6IlRYIFNhbml0YXMgQW5jaG9yIEluZGl2aWR1YWwgRXhjaGFuZ2UgQmVuZWZpdCIsImRlbHN5cyI6Ijk0NiIsImNvdmVyYWdlVHlwZSI6Im1lZGljYWwiLCJwYXJ0bmVySWQiOiJ1aGMuZXhjaGFuZ2UiLCJsYW5ndWFnZSI6ImVuIiwic2hvd0Nvc3RzIjp0cnVlLCJmaXBzQ29kZSI6IjQ4In0B_6Q323L9wHzkAf22cjU43lZYKLoyfNzTYw8nrMBL04?planYear=2026"⟩ ]

/-- `TEXAS_LOCATIONS` of `app.py` (lines 46-59): twelve city names, no zip
codes. -/
def TEXAS_LOCATIONS : List (String × ℤ × ℤ) :=
  [ ("dallas", 327767, -967970),
    ("fort worth", 327555, -973308),
    ("houston", 297604, -953698),
    ("austin", 302672, -977431),
    ("san antonio", 294241, -984936),
    ("plano", 330198, -966989),
    ("arlington", 327357, -971081),
    ("irving", 328140, -969489),
    ("frisco", 331507, -968236),
    ("mckinney", 331972, -966397),
    ("denton", 332148, -971331),
    ("richardson", 329483, -967299) ]

/-- Name parsing of `search_npi` of `app.py` (lines 449-460): identical text
to the CLI version.  Returns `(first, last)`. -/
def splitDoctorName (name : String) : String × String :=
  let name_parts := pyStrip (pyReplace (pyReplace name "Dr." "") "Dr" "")
  match (breakAtChar ',' name_parts.data).2 with
  | some aft => (pyStrip ⟨aft⟩, pyStrip ⟨(breakAtChar ',' name_parts.data).1⟩)
  | none =>
    match pyWords name_parts with
    | p0 :: p1 :: rest => (p0, pyJoinSpace (p1 :: rest))
    | _ => ("", name_parts)

/-- Practice-address selection of `app.py`'s `search_npi` (lines 487-490). -/
def practiceAddress (addresses : List NPIAddress) : NPIAddress :=
  match addresses.find? (fun a => a.address_purpose == some "LOCATION") with
  | some a => a
  | none => addresses.headD NPIAddress.empty

/-- Primary-taxonomy selection of `app.py`'s `search_npi` (lines 492-495). -/
def primaryTaxonomy (taxonomies : List NPITaxonomy) : NPITaxonomy :=
  match taxonomies.find? (fun t => t.primary) with
  | some t => t
  | none => taxonomies.headD NPITaxonomy.empty

/-- The per-result dict appended by `app.py`'s `search_npi` (lines 502-509);
unlike the CLI it pre-formats `location` and keeps no separate
address/city/state/zip fields. -/
structure WebNPIItem where
  npi : String
  name : String
  credential : String
  specialty : String
  location : String
  phone : String
deriving Repr, DecidableEq

/-- The dict built for one response record (lines 502-509). -/
def mkNPIItem (r : NPIRecord) (practice_addr : NPIAddress)
    (specialty_name : String) : WebNPIItem where
  npi := r.number.getD ""
  name := pyStrip ((r.basic.first_name.getD "") ++ " " ++ (r.basic.last_name.getD ""))
  credential := r.basic.credential.getD ""
  specialty := specialty_name
  location := (practice_addr.city.getD "") ++ ", " ++ (practice_addr.state.getD "") ++
    " " ++ pyTake (practice_addr.postal_code.getD "") 5
  phone := practice_addr.telephone_number.getD ""

/-- `search_npi` of `app.py` (lines 447-513); any exception from the request
is caught (line 512) and yields `[]`. -/
def search_npi (net : NPIOutcome) (_name : String)
    (_city specialty : Option String) : List WebNPIItem :=
  match net with
  | Except.error _ => []
  | Except.ok data =>
    data.results.filterMap (fun r =>
      let practice_addr := practiceAddress r.addresses
      let primary_tax := primaryTaxonomy r.taxonomies
      let specialty_name := primary_tax.desc.getD "Unknown"
      match specialty with
      | some sp =>
        if !(pyIn (pyLower sp) (pyLower specialty_name)) then none
        else some (mkNPIItem r practice_addr specialty_name)
      | none => some (mkNPIItem r practice_addr specialty_name))

/-- The "blue_advantage_hmo" template of `app.py`'s `BCBSTX_SEARCH_URLS`
(lines 19-22), identical to the CLI template. -/
def blueAdvantageUrl (query latS lonS radiusS : String) : String :=
  "https://my.providerfinderonline.com/search/name/" ++ query ++
  "?ci=tx-blueadvantage-retail&network_id=1000128&geo_location=" ++ latS ++ "," ++ lonS ++
  "&locale=en&corp_code=TX&radius=" ++ radiusS

/-- The "my_blue_health" template of `app.py`'s `BCBSTX_SEARCH_URLS`
(lines 23-26). -/
def myBlueHealthUrl (query latS lonS radiusS : String) : String :=
  "https://my.providerfinderonline.com/search/name/" ++ query ++
  "?ci=tx-myblue-health&network_id=240000127&geo_location=" ++ latS ++ "," ++ lonS ++
  "&locale=en&corp_code=TX&radius=" ++ radiusS

/-- `generate_bcbstx_urls` of `app.py` (lines 516-524). -/
def generate_bcbstx_urls (name : String) (lat lon radius : ℤ) : List NetworkLink :=
  [ ⟨"blue_advantage_hmo", "Blue Advantage HMO",
      blueAdvantageUrl (quote name) (renderCoord lat) (renderCoord lon) (toString radius)⟩,
    ⟨"my_blue_health", "My Blue Health",
      myBlueHealthUrl (quote name) (renderCoord lat) (renderCoord lon) (toString radius)⟩ ]

/-- `generate_uhc_urls` of `app.py` (lines 527-535): copies each configured
name/url pair unchanged; it takes no input at all. -/
def generate_uhc_urls : List NetworkLink :=
  UHC_SEARCH_URLS.map (fun l => ⟨l.key, l.label, l.url⟩)

/-- `parse_doctors` of `app.py` (lines 538-551): identical text to the CLI
version, building `{"name": ..., "specialty": ...}` dicts. -/
def parse_doctors (doctor_input : String) : List Doctor :=
  (pySplitComma doctor_input).filterMap (fun e0 =>
    let entry := pyStrip e0
    if entry = "" then none
    else if pyHasChar '(' entry && pyHasChar ')' entry then
      let i := pyIndexOf entry '('
      let j := pyIndexOf entry ')'
      some ⟨pyStrip (pyTake entry i), some (pyStrip (pySlice entry (i + 1) j))⟩
    else some ⟨entry, none⟩)

/-- One element of the JSON array returned by `/search` (lines 579-587). -/
structure WebResult where
  doctor : String
  specialty_filter : Option String
  npi_found : Bool
  npi_count : Nat
  npi_results : List WebNPIItem
  bcbstx_urls : List NetworkLink
  uhc_urls : List NetworkLink
deriving Repr, DecidableEq

/-- The bundle assembled for one doctor in the `/search` loop
(lines 571-587). -/
def searchBundle (net : NPIOutcome) (doctor : Doctor) (lat lon radius : ℤ)
    (city : Option String) : WebResult where
  doctor := doctor.name
  specialty_filter := doctor.specialty
  npi_found := decide (0 < (search_npi net doctor.name city doctor.specialty).length)
  npi_count := (search_npi net doctor.name city doctor.specialty).length
  npi_results := (search_npi net doctor.name city doctor.specialty).take 5
  bcbstx_urls := generate_bcbstx_urls doctor.name lat lon radius
  uhc_urls := generate_uhc_urls

/-- The `/search` loop over the parsed doctors (lines 570-587): the
sequential registry calls are modelled by indexing the oracle with the
doctor's position. -/
def runSearch (net : Nat → NPIOutcome) (doctors : List Doctor)
    (lat lon radius : ℤ) (city : Option String) : List WebResult :=
  doctors.enum.map (fun p => searchBundle (net p.1) p.2 lat lon radius city)

/-- Coordinate selection of `/search` (line 566):
`TEXAS_LOCATIONS.get(location, TEXAS_LOCATIONS["dallas"])`, the fallback
being the table's "dallas" entry `(32.7767, -96.7970)`. -/
def searchCoords (location : String) : ℤ × ℤ :=
  (TEXAS_LOCATIONS.lookup location).getD (327767, -967970)

/-- The `/search` endpoint body (lines 559-589), for a `location` query
parameter already defaulted to "dallas" by `request.args.get` and a `radius`
already parsed by `int(...)`.  It lower-cases `location`, resolves
coordinates from the static web table with the Dallas fallback, parses the
doctors and runs the per-doctor loop.  No geocoding oracle appears anywhere
in this definition: the web path can issue no geocoding request and returns
a plain list (no error outcome exists in its type). -/
def search (net : Nat → NPIOutcome) (doctors_input location : String)
    (radius : ℤ) (city : Option String) : List WebResult :=
  let coords := searchCoords (pyLower location)
  runSearch net (parse_doctors doctors_input) coords.1 coords.2 radius city

end WebApp

example : CheckDoctors.normalizeLocation "  Austin, TX " = "austin" := by decide
example : (CheckDoctors.geocode_location (CheckDoctors.GeoOutcome.failure TransportError.timeout) "Garland").1
    = Except.ok (329126, -966389) := by decide
example : (CheckDoctors.geocode_location (CheckDoctors.GeoOutcome.failure TransportError.timeout) "Atlantis").1
    = Except.error "Atlantis, TX" := by decide

example : quote "John Smith" = "John%20Smith" := by decide
example : renderCoord (-968000) = "-96.8" := by decide
example : renderCoord 327800 = "32.78" := by decide
example : renderCoord 320000 = "32.0" := by decide
example : renderCoord 328140 = "32.814" := by decide
example : renderCoord (-1064850) = "-106.485" := by decide
example : CheckDoctors.splitDoctorName "Smith, John" = ("John", "Smith") := by decide
example : CheckDoctors.splitDoctorName "John Smith" = ("John", "Smith") := by decide
example : CheckDoctors.splitDoctorName "Madonna" = ("", "Madonna") := by decide
example : CheckDoctors.splitDoctorName "Dr. John Smith" = ("John", "Smith") := by decide
example : CheckDoctors.splitDoctorName "Drew Carey" = ("ew", "Carey") := by decide
example : CheckDoctors.splitDoctorName "Smith ,John" = ("John", "Smith") := by decide
example : CheckDoctors.parse_doctors "John Smith (Cardiology), Jane Doe" =
    [⟨"John Smith", some "Cardiology"⟩, ⟨"Jane Doe", none⟩] := by decide
example : CheckDoctors.parse_doctors " , ,a" = [⟨"a", none⟩] := by decide
example : CheckDoctors.parse_doctors ") x (" = [⟨") x", some ""⟩] := by decide
example : pyWords "  " = [] := by decide
set_option maxRecDepth 4000 in
example : CheckDoctors.generate_bcbstx_urls "John Smith" 327800 (-968000) 25 =
  [ ⟨"blue_advantage_hmo", "Blue Advantage HMO",
     "https://my.providerfinderonline.com/search/name/John%20Smith?ci=tx-blueadvantage-retail&network_id=1000128&geo_location=32.78,-96.8&locale=en&corp_code=TX&radius=25"⟩,
    ⟨"my_blue_health", "My Blue Health",
     "https://my.providerfinderonline.com/search/name/John%20Smith?ci=tx-myblue-health&network_id=240000127&geo_location=32.78,-96.8&locale=en&corp_code=TX&radius=25"⟩ ] := by decide
example : WebApp.searchCoords (pyLower "Garland") = (327767, -967970) := by decide

/-! ## Claim-facing definitions and helper lemmas -/

/-- The remainder after stripping the "Dr."/"Dr" substrings and surrounding
whitespace from a doctor name (the `name_parts` value of both
`search_npi` implementations). -/
def stripDr (name : String) : String :=
  pyStrip (pyReplace (pyReplace name "Dr." "") "Dr" "")

/-- The text before the first comma of a string. -/
def beforeComma (s : String) : String :=
  ⟨s.data.takeWhile (fun c => !(c == ','))⟩

/-- The text after the first comma of a string. -/
def afterComma (s : String) : String :=
  ⟨(s.data.dropWhile (fun c => !(c == ','))).tail⟩

lemma breakAtChar_eq (ch : Char) (s : List Char) :
    breakAtChar ch s =
      (s.takeWhile (fun c => !(c == ch)),
       if s.contains ch then some ((s.dropWhile (fun c => !(c == ch))).tail)
       else none) := by
  induction s with
  | nil => simp [breakAtChar]
  | cons c rest ih =>
    by_cases hc : c = ch
    · subst hc
      simp [breakAtChar]
    · have hcs : ¬ ch = c := fun h => hc h.symm
      simp [breakAtChar, ih, hc, hcs, List.contains_cons]

/-- C2: for every doctor-name string, the Registry Client first strips the
"Dr."/"Dr" substrings and surrounding whitespace (`stripDr`); if the
remainder contains a comma, the text before the comma is the last name and
the text after it the first name, both trimmed; otherwise the first
whitespace token is the first name and the remaining tokens joined by a
space are the last name; with at most one token the whole remainder is the
last name and the first name is empty.  `splitDoctorName` returns
`(first, last)`, so "Smith, John" gives ("John", "Smith"), "John Smith"
gives ("John", "Smith"), and "Madonna" gives ("", "Madonna"). -/
theorem C2_registry_name_splitting (name : String) :
    (pyHasChar ',' (stripDr name) = true →
      CheckDoctors.splitDoctorName name =
        (pyStrip (afterComma (stripDr name)), pyStrip (beforeComma (stripDr name)))) ∧
    (pyHasChar ',' (stripDr name) = false →
      match pyWords (stripDr name) with
      | p0 :: p1 :: rest =>
        CheckDoctors.splitDoctorName name = (p0, pyJoinSpace (p1 :: rest))
      | _ => CheckDoctors.splitDoctorName name = ("", stripDr name)) ∧
    CheckDoctors.splitDoctorName "Smith, John" = ("John", "Smith") ∧
    CheckDoctors.splitDoctorName "John Smith" = ("John", "Smith") ∧
    CheckDoctors.splitDoctorName "Madonna" = ("", "Madonna") := by
  refine ⟨?_, ?_, by decide, by decide, by decide⟩
  · intro h
    have h2 : (stripDr name).data.contains ',' = true := h
    simp only [CheckDoctors.splitDoctorName, breakAtChar_eq, stripDr,
      beforeComma, afterComma] at h2 ⊢
    rw [h2]
    rfl
  · intro h
    have h2 : (stripDr name).data.contains ',' = false := h
    rcases hw : pyWords (stripDr name) with _ | ⟨p0, _ | ⟨p1, rest⟩⟩ <;>
      simp only [stripDr] at h2 hw <;>
      simp only [CheckDoctors.splitDoctorName, breakAtChar_eq, stripDr, h2,
        if_false, hw, Bool.false_eq_true]

/-- The per-entry rule of the Doctor Input Parser for a trimmed non-empty
entry (lines 313-318 of `check_doctors.py`): with both "(" and ")" present,
the name is the trimmed text before the first "(" and the specialty the
trimmed text between the first "(" and the first ")"; otherwise the whole
entry is the name and the specialty is `none`. -/
def entryDoctor (entry : String) : Doctor :=
  if pyHasChar '(' entry && pyHasChar ')' entry then
    ⟨pyStrip (pyTake entry (pyIndexOf entry '(')),
     some (pyStrip (pySlice entry (pyIndexOf entry '(' + 1) (pyIndexOf entry ')')))⟩
  else ⟨entry, none⟩

/-- The per-entry branch of `parse_doctors` (the loop body, lines 309-318 of
`check_doctors.py`), as a `filterMap` step. -/
def parseEntry (e0 : String) : Option Doctor :=
  let entry := pyStrip e0
  if entry = "" then none
  else if pyHasChar '(' entry && pyHasChar ')' entry then
    some ⟨pyStrip (pyTake entry (pyIndexOf entry '(')),
          some (pyStrip (pySlice entry (pyIndexOf entry '(' + 1) (pyIndexOf entry ')')))⟩
  else some ⟨entry, none⟩

lemma parseEntry_eq (e0 : String) :
    parseEntry e0 =
      if pyStrip e0 = "" then none else some (entryDoctor (pyStrip e0)) := by
  unfold parseEntry entryDoctor
  by_cases h : pyStrip e0 = ""
  · simp [h]
  · simp only [h, if_neg h]
    rw [apply_ite some]

lemma filterMap_entryDoctor (l : List String) :
    l.filterMap parseEntry =
      ((l.map pyStrip).filter (fun e => e ≠ "")).map entryDoctor := by
  induction l with
  | nil => rfl
  | cons a t ih =>
    rw [List.filterMap_cons, parseEntry_eq a, List.map_cons, List.filter_cons]
    by_cases h : pyStrip a = ""
    · simp [h, ih]
    · simp [h, ih]

/-- C3: for every input string, the Doctor Input Parser splits on commas,
trims whitespace, skips empty entries, and maps each remaining entry
through the per-entry rule `entryDoctor`: entries containing both "(" and
")" split at the first parenthesis pair into trimmed name and specialty,
and entries without parentheses get specialty `none`.  The characterization
as `map entryDoctor` of the trimmed non-empty comma pieces shows the output
preserves input order and keeps duplicates. -/
theorem C3_doctor_input_parsing (input : String) :
    (CheckDoctors.parse_doctors input =
      (((pySplitComma input).map pyStrip).filter (fun e => e ≠ "")).map entryDoctor) ∧
    (∀ entry : String, pyHasChar '(' entry = true → pyHasChar ')' entry = true →
      entryDoctor entry =
        ⟨pyStrip (pyTake entry (pyIndexOf entry '(')),
         some (pyStrip (pySlice entry (pyIndexOf entry '(' + 1) (pyIndexOf entry ')')))⟩) ∧
    (∀ entry : String, pyHasChar '(' entry = false ∧ pyHasChar ')' entry = false →
      entryDoctor entry = ⟨entry, none⟩) := by
  refine ⟨?_, ?_, ?_⟩
  · exact filterMap_entryDoctor (pySplitComma input)
  · intro entry h1 h2
    simp [entryDoctor, h1, h2]
  · intro entry h
    simp [entryDoctor, h.1, h.2]

/-- Witness for C3 at concrete inputs. -/
theorem C3_doctor_input_parsing_witness :
    CheckDoctors.parse_doctors "Dr. Jane Doe (Cardiology), Madonna" =
      [⟨"Dr. Jane Doe", some "Cardiology"⟩, ⟨"Madonna", none⟩] ∧
    entryDoctor "Madonna" = ⟨"Madonna", none⟩ := by
  constructor
  · rw [(C3_doctor_input_parsing "Dr. Jane Doe (Cardiology), Madonna").1]
    decide
  · exact (C3_doctor_input_parsing "").2.2 "Madonna" ⟨by decide, by decide⟩

/-- Witness for C2 at a concrete input containing a comma. -/
theorem C2_registry_name_splitting_witness :
    CheckDoctors.splitDoctorName "Dr. Smith, John" = ("John", "Smith") := by
  rw [(C2_registry_name_splitting "Dr. Smith, John").1 (by decide)]
  decide

/-- C7: for every location string whose normalized form (lower-cased,
surrounding whitespace stripped, recognized state-suffix patterns removed:
`normalizeLocation`, the resolver's own normalization of lines 97-100) is a
key of the static `TEXAS_LOCATIONS` table, `geocode_location` returns
exactly that table entry's coordinates with the network flag `false`;
the geocoding oracle `net` is universally quantified and absent from the
right-hand side, so the result is independent of the geocoding service's
behavior. -/
theorem C7_static_location_table (location : String)
    (net : CheckDoctors.GeoOutcome) (c : ℤ × ℤ)
    (h : CheckDoctors.TEXAS_LOCATIONS.lookup
        (CheckDoctors.normalizeLocation location) = some c) :
    CheckDoctors.geocode_location net location = (Except.ok c, false) := by
  unfold CheckDoctors.geocode_location
  rw [h]

/-- Witness for C7: "Fort Worth, TX" resolves from the table with no
network request, whatever the geocoding outcome would have been. -/
theorem C7_static_location_table_witness :
    CheckDoctors.TEXAS_LOCATIONS.lookup
        (CheckDoctors.normalizeLocation "Fort Worth, TX") = some (327555, -973308) ∧
    CheckDoctors.geocode_location
        (CheckDoctors.GeoOutcome.failure TransportError.timeout) "Fort Worth, TX" =
      (Except.ok (327555, -973308), false) :=
  ⟨by decide,
   C7_static_location_table "Fort Worth, TX"
     (CheckDoctors.GeoOutcome.failure TransportError.timeout) (327555, -973308) (by decide)⟩

/-- Counterexample to C5 as stated: on a network failure for input
"Atlantis" the raised error carries "Atlantis, TX" (the query string with
the appended state suffix), which differs from the original input
"Atlantis". -/
theorem C5_counterexample :
    (CheckDoctors.geocode_location
        (CheckDoctors.GeoOutcome.failure TransportError.timeout) "Atlantis").1
      = Except.error "Atlantis, TX" ∧
    ("Atlantis, TX" : String) ≠ "Atlantis" := by
  exact ⟨by decide, by decide⟩

/-- C5 amended: for every location string missing from the static table,
every request failure and the empty result set are re-expressed as the
`LocationNotFound` error (never propagated as a raw network error), and the
error carries the queried location string `geocodeQuery location`: the
original input itself when it already mentions "tx" or "texas"
case-insensitively, otherwise the original input with ", TX" appended. -/
theorem C5_geocode_failure_amended (location : String) (e : TransportError)
    (h : CheckDoctors.TEXAS_LOCATIONS.lookup
        (CheckDoctors.normalizeLocation location) = none) :
    (CheckDoctors.geocode_location (CheckDoctors.GeoOutcome.failure e) location).1
        = Except.error (CheckDoctors.geocodeQuery location) ∧
    (CheckDoctors.geocode_location (CheckDoctors.GeoOutcome.success []) location).1
        = Except.error (CheckDoctors.geocodeQuery location) ∧
    (pyIn "tx" (pyLower location) = false → pyIn "texas" (pyLower location) = false →
      CheckDoctors.geocodeQuery location = location ++ ", TX") ∧
    (pyIn "tx" (pyLower location) = true ∨ pyIn "texas" (pyLower location) = true →
      CheckDoctors.geocodeQuery location = location) := by
  refine ⟨?_, ?_, ?_, ?_⟩
  · simp [CheckDoctors.geocode_location, h]
  · simp [CheckDoctors.geocode_location, h]
  · intro h1 h2
    simp [CheckDoctors.geocodeQuery, h1, h2]
  · intro h12
    rcases h12 with h1 | h1 <;> simp [CheckDoctors.geocodeQuery, h1]

/-- Witness for C5 (amended) at the concrete input "Springfield". -/
theorem C5_geocode_failure_amended_witness :
    (CheckDoctors.geocode_location
        (CheckDoctors.GeoOutcome.failure TransportError.connectionFailure) "Springfield").1
      = Except.error (CheckDoctors.geocodeQuery "Springfield") ∧
    CheckDoctors.geocodeQuery "Springfield" = "Springfield" ++ ", TX" := by
  have h := C5_geocode_failure_amended "Springfield" TransportError.connectionFailure (by decide)
  exact ⟨h.1, h.2.2.1 (by decide) (by decide)⟩

/-- C4: registry response normalization.  The practice address is the first
address whose purpose tag equals "LOCATION", else the first address, else
the empty address; the primary taxonomy is the first entry flagged primary,
else the first taxonomy, else the empty taxonomy; a single-record response
normalizes to exactly the `NPIResult` built from those selections with the
specialty description defaulting to "Unknown" when the selected taxonomy
lacks one; and the zip code is the first 5 characters of the selected
postal code. -/
theorem C4_response_normalization :
    (∀ (addrs : List NPIAddress) (a : NPIAddress),
      addrs.find? (fun x => x.address_purpose == some "LOCATION") = some a →
      CheckDoctors.practiceAddress addrs = a) ∧
    (∀ addrs : List NPIAddress,
      addrs.find? (fun x => x.address_purpose == some "LOCATION") = none →
      CheckDoctors.practiceAddress addrs = addrs.headD NPIAddress.empty) ∧
    CheckDoctors.practiceAddress [] = NPIAddress.empty ∧
    (∀ (taxs : List NPITaxonomy) (t : NPITaxonomy),
      taxs.find? (fun x => x.primary) = some t →
      CheckDoctors.primaryTaxonomy taxs = t) ∧
    (∀ taxs : List NPITaxonomy,
      taxs.find? (fun x => x.primary) = none →
      CheckDoctors.primaryTaxonomy taxs = taxs.headD NPITaxonomy.empty) ∧
    CheckDoctors.primaryTaxonomy [] = NPITaxonomy.empty ∧
    (∀ (r : NPIRecord) (name : String) (city : Option String),
      CheckDoctors.search_npi (Except.ok ⟨[r]⟩) name city none =
        [CheckDoctors.mkNPIResult r (CheckDoctors.practiceAddress r.addresses)
          (((CheckDoctors.primaryTaxonomy r.taxonomies).desc).getD "Unknown")]) ∧
    (∀ taxs : List NPITaxonomy,
      (CheckDoctors.primaryTaxonomy taxs).desc = none →
      ((CheckDoctors.primaryTaxonomy taxs).desc).getD "Unknown" = "Unknown") ∧
    (∀ (r : NPIRecord) (pa : NPIAddress) (sn : String),
      (CheckDoctors.mkNPIResult r pa sn).zip_code =
        ⟨(pa.postal_code.getD "").data.take 5⟩) := by
  refine ⟨?_, ?_, rfl, ?_, ?_, rfl, ?_, ?_, ?_⟩
  · intro addrs a h
    unfold CheckDoctors.practiceAddress
    rw [h]
  · intro addrs h
    unfold CheckDoctors.practiceAddress
    rw [h]
  · intro taxs t h
    unfold CheckDoctors.primaryTaxonomy
    rw [h]
  · intro taxs h
    unfold CheckDoctors.primaryTaxonomy
    rw [h]
  · intro r name city
    rfl
  · intro taxs h
    rw [h]
    rfl
  · intro r pa sn
    rfl

/-- Witness for C4 at a concrete response record whose second address is the
"LOCATION" one, whose second taxonomy is the primary one with no
description, and whose postal code has nine digits. -/
theorem C4_response_normalization_witness :
    CheckDoctors.practiceAddress
        [⟨some "MAILING", some "PO Box 1", some "Austin", some "TX", some "787011234", none⟩,
         ⟨some "LOCATION", some "1 Main St", some "Dallas", some "TX", some "752015678", some "555"⟩] =
      ⟨some "LOCATION", some "1 Main St", some "Dallas", some "TX", some "752015678", some "555"⟩ ∧
    CheckDoctors.primaryTaxonomy [⟨false, some "Internal Medicine"⟩, ⟨true, none⟩] = ⟨true, none⟩ ∧
    CheckDoctors.search_npi
        (Except.ok ⟨[⟨some "123", ⟨some "John", some "Smith", some "MD"⟩,
          [⟨some "LOCATION", some "1 Main St", some "Dallas", some "TX", some "752015678", some "555"⟩],
          [⟨true, none⟩]⟩]⟩) "John Smith" none none =
      [⟨"123", "John Smith", "MD", "Unknown", "1 Main St", "Dallas", "TX", "75201", "555"⟩] := by
  refine ⟨C4_response_normalization.1 _ _ (by decide), ?_, ?_⟩
  · exact C4_response_normalization.2.2.2.1 _ _ (by decide)
  · rw [C4_response_normalization.2.2.2.2.2.2.1
      ⟨some "123", ⟨some "John", some "Smith", some "MD"⟩,
        [⟨some "LOCATION", some "1 Main St", some "Dallas", some "TX", some "752015678", some "555"⟩],
        [⟨true, none⟩]⟩ "John Smith" none]
    decide

lemma runSearch_length (net : Nat → NPIOutcome) (doctors : List Doctor)
    (lat lon radius : ℤ) (city : Option String) :
    (WebApp.runSearch net doctors lat lon radius city).length = doctors.length := by
  simp [WebApp.runSearch]

lemma runSearch_get (net : Nat → NPIOutcome) (doctors : List Doctor)
    (lat lon radius : ℤ) (city : Option String) (i : Nat)
    (h1 : i < (WebApp.runSearch net doctors lat lon radius city).length)
    (h2 : i < doctors.length) :
    (WebApp.runSearch net doctors lat lon radius city).get ⟨i, h1⟩ =
      WebApp.searchBundle (net i) (doctors.get ⟨i, h2⟩) lat lon radius city := by
  simp [WebApp.runSearch, List.get_eq_getElem, List.getElem_map, List.getElem_enum]

/-- C1: the Orchestrator (`/search` loop and CLI `check_doctor`) produces
one result bundle per doctor, in input order (`runSearch` has the length of
the doctors list and its i-th bundle is built from the i-th doctor, so
duplicate doctor entries each yield their own bundle); each bundle's
found-flag is true exactly when that doctor's registry result list is
non-empty, its count is the full length of that list, and its displayed
records are only the first 5. -/
theorem C1_orchestrator_bundles :
    (∀ (net : Nat → NPIOutcome) (doctors : List Doctor) (lat lon radius : ℤ)
        (city : Option String),
      (WebApp.runSearch net doctors lat lon radius city).length = doctors.length) ∧
    (∀ (net : Nat → NPIOutcome) (doctors : List Doctor) (lat lon radius : ℤ)
        (city : Option String) (i : Nat)
        (h1 : i < (WebApp.runSearch net doctors lat lon radius city).length)
        (h2 : i < doctors.length),
      (WebApp.runSearch net doctors lat lon radius city).get ⟨i, h1⟩ =
        WebApp.searchBundle (net i) (doctors.get ⟨i, h2⟩) lat lon radius city) ∧
    (∀ (net : NPIOutcome) (doctor : Doctor) (lat lon radius : ℤ) (city : Option String),
      ((WebApp.searchBundle net doctor lat lon radius city).npi_found = true ↔
        WebApp.search_npi net doctor.name city doctor.specialty ≠ []) ∧
      (WebApp.searchBundle net doctor lat lon radius city).npi_count =
        (WebApp.search_npi net doctor.name city doctor.specialty).length ∧
      (WebApp.searchBundle net doctor lat lon radius city).npi_results =
        (WebApp.search_npi net doctor.name city doctor.specialty).take 5) ∧
    (∀ (net : NPIOutcome) (doctor : Doctor) (lat lon radius : ℤ) (city : Option String),
      ((CheckDoctors.check_doctor net doctor lat lon radius city).npi_found = true ↔
        CheckDoctors.search_npi net doctor.name city doctor.specialty ≠ []) ∧
      (CheckDoctors.check_doctor net doctor lat lon radius city).npi_count =
        (CheckDoctors.search_npi net doctor.name city doctor.specialty).length ∧
      (CheckDoctors.check_doctor net doctor lat lon radius city).npi_results =
        ((CheckDoctors.search_npi net doctor.name city doctor.specialty).take 5).map
          CheckDoctors.displayNPI) := by
  refine ⟨fun net doctors lat lon radius city => runSearch_length net doctors lat lon radius city,
    fun net doctors lat lon radius city i h1 h2 =>
      runSearch_get net doctors lat lon radius city i h1 h2, ?_, ?_⟩
  · intro net doctor lat lon radius city
    refine ⟨?_, rfl, rfl⟩
    simp [WebApp.searchBundle, List.length_pos]
  · intro net doctor lat lon radius city
    refine ⟨?_, rfl, rfl⟩
    simp [CheckDoctors.check_doctor, List.length_pos]

/-- Witness for C1: two identical doctors produce two separate bundles, and
the found-flag/count/display facts hold at an empty and a non-empty
response. -/
theorem C1_orchestrator_bundles_witness :
    (WebApp.runSearch (fun _ => Except.ok ⟨[]⟩) [⟨"Jane Doe", none⟩, ⟨"Jane Doe", none⟩]
        327767 (-967970) 25 none).length = 2 ∧
    (WebApp.runSearch (fun _ => Except.ok ⟨[]⟩) [⟨"Jane Doe", none⟩, ⟨"Jane Doe", none⟩]
        327767 (-967970) 25 none).get ⟨1, by decide⟩ =
      WebApp.searchBundle (Except.ok ⟨[]⟩) ⟨"Jane Doe", none⟩ 327767 (-967970) 25 none ∧
    ((WebApp.searchBundle (Except.ok ⟨[]⟩) ⟨"Jane Doe", none⟩ 327767 (-967970) 25 none).npi_found
        = true ↔
      WebApp.search_npi (Except.ok ⟨[]⟩) "Jane Doe" none none ≠ []) := by
  refine ⟨C1_orchestrator_bundles.1 _ _ _ _ _ _, ?_, ?_⟩
  · exact C1_orchestrator_bundles.2.1 _ _ _ _ _ _ 1 (by decide) (by decide)
  · exact (C1_orchestrator_bundles.2.2.1 (Except.ok ⟨[]⟩) ⟨"Jane Doe", none⟩
      327767 (-967970) 25 none).1

/-- C6: a transport-level registry error (any `TransportError`) yields an
empty result list in both implementations rather than a propagated error;
the CLI bundle then reports found=false and count=0 and the web bundle
found=false, so callers cannot distinguish "no matches" from "provider
unreachable"; and in the web loop one doctor's registry failure leaves every
other doctor's bundle unchanged. -/
theorem C6_registry_transport_errors :
    (∀ (e : TransportError) (name : String) (city specialty : Option String),
      CheckDoctors.search_npi (Except.error e) name city specialty = []) ∧
    (∀ (e : TransportError) (name : String) (city specialty : Option String),
      WebApp.search_npi (Except.error e) name city specialty = []) ∧
    (∀ (e : TransportError) (doctor : Doctor) (lat lon radius : ℤ) (city : Option String),
      (CheckDoctors.check_doctor (Except.error e) doctor lat lon radius city).npi_found = false ∧
      (CheckDoctors.check_doctor (Except.error e) doctor lat lon radius city).npi_count = 0) ∧
    (∀ (e : TransportError) (doctor : Doctor) (lat lon radius : ℤ) (city : Option String),
      (WebApp.searchBundle (Except.error e) doctor lat lon radius city).npi_found = false) ∧
    (∀ (net net2 : Nat → NPIOutcome) (doctors : List Doctor) (lat lon radius : ℤ)
        (city : Option String) (j i : Nat),
      (∀ k, k ≠ j → net k = net2 k) → i ≠ j →
      ∀ (h1 : i < (WebApp.runSearch net doctors lat lon radius city).length)
        (h2 : i < (WebApp.runSearch net2 doctors lat lon radius city).length),
        (WebApp.runSearch net doctors lat lon radius city).get ⟨i, h1⟩ =
          (WebApp.runSearch net2 doctors lat lon radius city).get ⟨i, h2⟩) := by
  refine ⟨fun e name city specialty => rfl, fun e name city specialty => rfl, ?_, ?_, ?_⟩
  · intro e doctor lat lon radius city
    exact ⟨rfl, rfl⟩
  · intro e doctor lat lon radius city
    rfl
  · intro net net2 doctors lat lon radius city j i hk hij h1 h2
    have hd : i < doctors.length := by
      have h3 := h1
      rwa [runSearch_length] at h3
    rw [runSearch_get net doctors lat lon radius city i h1 hd,
      runSearch_get net2 doctors lat lon radius city i h2 hd, hk i hij]

/-- Witness for C6: a concrete failing registry call returns no results and
found=false, and failing only the second doctor leaves the first doctor's
bundle identical to the fully-successful run. -/
theorem C6_registry_transport_errors_witness :
    CheckDoctors.search_npi (Except.error TransportError.timeout) "John Smith" none none = [] ∧
    (CheckDoctors.check_doctor (Except.error TransportError.timeout) ⟨"John Smith", none⟩
        327767 (-967970) 25 none).npi_found = false ∧
    (WebApp.runSearch
        (fun k => if k = 1 then Except.error TransportError.timeout else Except.ok ⟨[]⟩)
        [⟨"A", none⟩, ⟨"B", none⟩] 327767 (-967970) 25 none).get ⟨0, by decide⟩ =
      (WebApp.runSearch (fun _ => Except.ok ⟨[]⟩)
        [⟨"A", none⟩, ⟨"B", none⟩] 327767 (-967970) 25 none).get ⟨0, by decide⟩ := by
  refine ⟨C6_registry_transport_errors.1 TransportError.timeout "John Smith" none none,
    (C6_registry_transport_errors.2.2.1 TransportError.timeout ⟨"John Smith", none⟩
      327767 (-967970) 25 none).1, ?_⟩
  exact C6_registry_transport_errors.2.2.2.2
    (fun k => if k = 1 then Except.error TransportError.timeout else Except.ok ⟨[]⟩)
    (fun _ => Except.ok ⟨[]⟩) [⟨"A", none⟩, ⟨"B", none⟩] 327767 (-967970) 25 none 1 0
    (fun k hk => by simp [hk]) (by decide) (by decide) (by decide)

set_option maxRecDepth 8000 in
/-- C8: for every doctor name, coordinates and radius, the Link Generator
produces exactly the two configured BCBSTX templates with the
percent-encoded name (`quote`) and the rendered latitude, longitude and
radius substituted; for name "John Smith", radius 25, coordinates
(32.78, -96.80) every templated URL contains the percent-encoded name
"John%20Smith", the exact coordinate values rendered as Python prints them
("geo_location=32.78,-96.8", `str(-96.80)` being "-96.8"), and "radius=25";
and the fixed UHC link set is the configured list returned verbatim — it
takes no input at all.  Both generators are pure functions with no network
oracle parameter, so neither can perform network I/O in this model. -/
theorem C8_link_generator :
    (∀ (name : String) (lat lon radius : ℤ),
      CheckDoctors.generate_bcbstx_urls name lat lon radius =
        [⟨"blue_advantage_hmo", "Blue Advantage HMO",
          CheckDoctors.blueAdvantageUrl (quote name) (renderCoord lat)
            (renderCoord lon) (toString radius)⟩,
         ⟨"my_blue_health", "My Blue Health",
          CheckDoctors.myBlueHealthUrl (quote name) (renderCoord lat)
            (renderCoord lon) (toString radius)⟩]) ∧
    (∀ l ∈ CheckDoctors.generate_bcbstx_urls "John Smith" 327800 (-968000) 25,
      pyIn "John%20Smith" l.url = true ∧
      pyIn "geo_location=32.78,-96.8" l.url = true ∧
      pyIn "radius=25" l.url = true) ∧
    quote "John Smith" = "John%20Smith" ∧
    renderCoord 327800 = "32.78" ∧
    renderCoord (-968000) = "-96.8" ∧
    WebApp.generate_uhc_urls = WebApp.UHC_SEARCH_URLS := by
  refine ⟨fun name lat lon radius => rfl, by decide, by decide, by decide, by decide, ?_⟩
  simp [WebApp.generate_uhc_urls]

set_option maxRecDepth 8000 in
/-- Witness for C8 at the first generated link for "John Smith". -/
theorem C8_link_generator_witness :
    pyIn "John%20Smith"
        ((CheckDoctors.generate_bcbstx_urls "John Smith" 327800 (-968000) 25).headD
          ⟨"", "", ""⟩).url = true ∧
    pyIn "geo_location=32.78,-96.8"
        ((CheckDoctors.generate_bcbstx_urls "John Smith" 327800 (-968000) 25).headD
          ⟨"", "", ""⟩).url = true ∧
    pyIn "radius=25"
        ((CheckDoctors.generate_bcbstx_urls "John Smith" 327800 (-968000) 25).headD
          ⟨"", "", ""⟩).url = true :=
  C8_link_generator.2.1
    ((CheckDoctors.generate_bcbstx_urls "John Smith" 327800 (-968000) 25).headD ⟨"", "", ""⟩)
    (by decide)

/-- Counterexample to C9 as stated: the two front ends do NOT share the
location table.  "garland" is a key of the CLI's `TEXAS_LOCATIONS` (and the
CLI resolves it offline to Garland's coordinates whatever the network
does), but it is absent from the web app's table, whose `/search` endpoint
therefore falls back to Dallas's coordinates — a different result for the
same input. -/
theorem C9_shared_logic_counterexample :
    CheckDoctors.TEXAS_LOCATIONS.lookup "garland" = some (329126, -966389) ∧
    WebApp.TEXAS_LOCATIONS.lookup "garland" = none ∧
    WebApp.searchCoords (pyLower "garland") = (327767, -967970) ∧
    (CheckDoctors.geocode_location
        (CheckDoctors.GeoOutcome.failure TransportError.timeout) "garland").1
      = Except.ok (329126, -966389) ∧
    ((327767 : ℤ), (-967970 : ℤ)) ≠ ((329126 : ℤ), (-966389 : ℤ)) := by
  decide

/-- The web app's per-record result dict obtained from a CLI `NPIResult`:
same fields, with `location` pre-formatted the way both sources format it. -/
def toWebItem (r : CheckDoctors.NPIResult) : WebApp.WebNPIItem :=
  ⟨r.npi, r.name, r.credential, r.specialty,
   r.city ++ ", " ++ r.state ++ " " ++ r.zip_code, r.phone⟩

/-- C9 amended: the CLI and the web app share identical doctor parsing,
name splitting, registry-response normalization and transport-error
handling (the web result dicts are exactly the projections of the CLI
results), and BCBSTX URL generation; but not the location handling: the
web app's static table only agrees with the CLI's on the web app's own
twelve keys (it is a strict subset — see the counterexample — and the web
path never geocodes). -/
theorem C9_shared_logic_amended :
    (∀ input : String, CheckDoctors.parse_doctors input = WebApp.parse_doctors input) ∧
    (∀ name : String, CheckDoctors.splitDoctorName name = WebApp.splitDoctorName name) ∧
    (∀ (net : NPIOutcome) (name : String) (city specialty : Option String),
      (CheckDoctors.search_npi net name city specialty).map toWebItem =
        WebApp.search_npi net name city specialty) ∧
    (∀ (name : String) (lat lon radius : ℤ),
      CheckDoctors.generate_bcbstx_urls name lat lon radius =
        WebApp.generate_bcbstx_urls name lat lon radius) ∧
    (∀ p ∈ WebApp.TEXAS_LOCATIONS,
      CheckDoctors.TEXAS_LOCATIONS.lookup p.1 = some p.2 ∧
      WebApp.TEXAS_LOCATIONS.lookup p.1 = some p.2) := by
  refine ⟨fun input => rfl, fun name => rfl, ?_, fun name lat lon radius => rfl, by decide⟩
  intro net name city specialty
  cases net with
  | error e => rfl
  | ok data =>
    simp only [CheckDoctors.search_npi, WebApp.search_npi, List.map_filterMap]
    congr 1
    funext r
    cases specialty with
    | none => rfl
    | some sp =>
      simp only [CheckDoctors.primaryTaxonomy, WebApp.primaryTaxonomy,
        CheckDoctors.practiceAddress, WebApp.practiceAddress]
      split <;> rfl

/-- Witness for C9 (amended): transport errors are handled identically, a
concrete successful record normalizes identically, and "houston" resolves
identically in both tables. -/
theorem C9_shared_logic_amended_witness :
    (CheckDoctors.search_npi (Except.error TransportError.connectionFailure)
        "Jane Doe" none none).map toWebItem =
      WebApp.search_npi (Except.error TransportError.connectionFailure) "Jane Doe" none none ∧
    (CheckDoctors.search_npi
        (Except.ok ⟨[⟨some "123", ⟨some "John", some "Smith", some "MD"⟩,
          [⟨some "LOCATION", some "1 Main St", some "Dallas", some "TX",
            some "752015678", some "555"⟩], [⟨true, some "Cardiology"⟩]⟩]⟩)
        "John Smith" none none).map toWebItem =
      WebApp.search_npi
        (Except.ok ⟨[⟨some "123", ⟨some "John", some "Smith", some "MD"⟩,
          [⟨some "LOCATION", some "1 Main St", some "Dallas", some "TX",
            some "752015678", some "555"⟩], [⟨true, some "Cardiology"⟩]⟩]⟩)
        "John Smith" none none ∧
    CheckDoctors.TEXAS_LOCATIONS.lookup "houston" = some (297604, -953698) := by
  refine ⟨C9_shared_logic_amended.2.2.1 _ "Jane Doe" none none,
    C9_shared_logic_amended.2.2.1 _ "John Smith" none none, ?_⟩
  exact (C9_shared_logic_amended.2.2.2.2 ("houston", 297604, -953698) (by decide)).1

/-- C10: for every `location` query parameter whose lower-cased value is
not a key of the web app's static table, the `/search` endpoint silently
uses Dallas's coordinates (32.7767, -96.7970) — the fixed-point integers
(327767, -967970) — and proceeds normally: `WebApp.search` takes no
geocoding oracle (the web model contains none), its result type has no
error alternative, so the web path can neither geocode nor raise
`LocationNotFound` nor report a location error to the caller. -/
theorem C10_web_location_fallback (net : Nat → NPIOutcome)
    (doctors_input location : String) (radius : ℤ) (city : Option String)
    (h : WebApp.TEXAS_LOCATIONS.lookup (pyLower location) = none) :
    WebApp.searchCoords (pyLower location) = (327767, -967970) ∧
    WebApp.search net doctors_input location radius city =
      WebApp.runSearch net (WebApp.parse_doctors doctors_input)
        327767 (-967970) radius city := by
  have h1 : WebApp.searchCoords (pyLower location) = (327767, -967970) := by
    simp [WebApp.searchCoords, h]
  exact ⟨h1, by simp [WebApp.search, h1]⟩

/-- Witness for C10 at the zip code "75201" (a CLI table key the web table
lacks). -/
theorem C10_web_location_fallback_witness :
    WebApp.searchCoords (pyLower "75201") = (327767, -967970) ∧
    WebApp.search (fun _ => Except.ok ⟨[]⟩) "Jane Doe" "75201" 25 none =
      WebApp.runSearch (fun _ => Except.ok ⟨[]⟩) (WebApp.parse_doctors "Jane Doe")
        327767 (-967970) 25 none :=
  C10_web_location_fallback (fun _ => Except.ok ⟨[]⟩) "Jane Doe" "75201" 25 none (by decide)
